import Mathlib

/-!
Verification of the session lifecycle of `authkit-remix` (src/session.ts,
src/config.ts, src/auth.ts) against its natural-language specification.

The TypeScript code is shallowly embedded: JavaScript exceptions become the
`Except Thrown` monad, the external collaborators (iron-session sealing, the
jose JWT library, the identity provider RPCs, and the cookie session storage)
become fields of an explicit environment record `Env`, and JavaScript objects
flowing through the result-merging logic become association lists of `JValue`.
All definitions are executable.
-/

set_option autoImplicit false

namespace AuthKit

/-- Provider-defined user profile. Opaque to the session core (the code never
inspects it), modelled by its identifier. -/
structure User where
  id : String
  deriving DecidableEq, Repr

/-- Impersonator record from src/interfaces.ts: `email` plus nullable `reason`. -/
structure Impersonator where
  email : String
  reason : Option String
  deriving DecidableEq, Repr

/-- The Session record sealed into the cookie (src/interfaces.ts `Session`):
access token, refresh token, user, optional impersonator and the transient
response `headers` map. `user` embeds the opaque runtime object, which the
session core forwards but never inspects. -/
structure Session where
  accessToken : String
  refreshToken : String
  user : Option User
  impersonator : Option Impersonator
  headers : List (String × String)
  deriving DecidableEq, Repr

/-- Decoded JWT payload of an access token (src/interfaces.ts `AccessToken`
plus the `exp`/`iss` fields read by `getClaimsFromAccessToken`); every claim
may be absent. -/
structure TokenClaims where
  sid : Option String
  org_id : Option String
  role : Option String
  permissions : Option (List String)
  entitlements : Option (List String)
  exp : Option Int
  iss : Option String
  deriving DecidableEq, Repr

/-- Result object of `getClaimsFromAccessToken` (src/session.ts lines 521-541):
the decoded claims renamed (`sid` to `sessionId`, `org_id` to `organizationId`). -/
structure SessionClaims where
  iss : Option String
  exp : Option Int
  sessionId : Option String
  organizationId : Option String
  role : Option String
  permissions : Option (List String)
  entitlements : Option (List String)
  deriving DecidableEq, Repr

/-- A sealed cookie value. `mk` records what iron-session's `sealData` was
given (payload, password, ttl); `corrupt` stands for any string that is not a
seal produced with the configured password (forged or garbled). -/
inductive Sealed where
  | mk (payload : Session) (password : String) (ttl : Nat)
  | corrupt
  deriving DecidableEq, Repr

/-- Payload of a well-formed seal, if any. -/
def Sealed.payload? : Sealed → Option Session
  | .mk p _ _ => some p
  | .corrupt => none

/-- Password a well-formed seal was produced with, if any. -/
def Sealed.password? : Sealed → Option String
  | .mk _ pw _ => some pw
  | .corrupt => none

/-- Time-to-live a well-formed seal was produced with, if any. -/
def Sealed.ttl? : Sealed → Option Nat
  | .mk _ _ t => some t
  | .corrupt => none

/-- Runtime JavaScript values appearing in loader data objects. Flat: the
merging logic only ever inspects top-level keys. `user`, `imp` and `sealedv`
embed the opaque objects the auth context carries. -/
inductive JValue where
  | null
  | str (s : String)
  | bool (b : Bool)
  | num (n : Int)
  | strList (xs : List String)
  | user (u : User)
  | imp (i : Impersonator)
  | sealedv (v : Sealed)
  deriving DecidableEq, Repr

/-- A JavaScript object as an association list (first entry wins on lookup,
mirroring the unique-key property of real objects). -/
abbrev JObj := List (String × JValue)

/-- Property lookup on an object. -/
def objGet : JObj → String → Option JValue
  | [], _ => none
  | p :: rest, k => if p.1 = k then some p.2 else objGet rest k

/-- Semantics of `Object.assign({}, a, b)`: keys of `a` in order with values
overridden by `b` where present, followed by the keys only `b` has. -/
def objAssign (a b : JObj) : JObj :=
  a.map (fun p => (p.1, (objGet b p.1).getD p.2)) ++
    b.filter (fun p => (objGet a p.1).isNone)

/-- Errors thrown by the embedded code. `sessionRefreshError` is the class of
src/session.ts line 25 carrying its cause; `typeError` models JavaScript's own
TypeError; `genericError` a plain `Error` with its message. -/
inductive JsError where
  | sessionRefreshError (cause : String)
  | typeError (msg : String)
  | genericError (msg : String)
  deriving DecidableEq, Repr

/-- Body of an HTTP response: a JSON object or an unparsable/plain text body. -/
inductive RBody where
  | json (o : JObj)
  | text (s : String)
  deriving DecidableEq, Repr

/-- An HTTP `Response` value. -/
structure HttpResponse where
  status : Nat
  statusText : String
  headers : List (String × String)
  body : RBody
  deriving DecidableEq, Repr

/-- Anything the embedded code can `throw`: a `Response` (redirects used as
control flow) or an error object. -/
inductive Thrown where
  | response (r : HttpResponse)
  | error (e : JsError)
  deriving DecidableEq, Repr

/-- Response init of a `DataWithResponseInit` (headers, status, statusText). -/
structure RInit where
  headers : List (String × String)
  status : Option Nat
  statusText : Option String
  deriving DecidableEq, Repr

/-- The `DataWithResponseInit` produced by Remix's `data()` helper. -/
structure DataInit where
  data : JObj
  init : Option RInit
  deriving DecidableEq, Repr

/-- Case-insensitive header lookup, as the `Headers` API performs. -/
def headerGet (hs : List (String × String)) (name : String) : Option String :=
  ((hs.find? (fun p => p.1.toLower == name.toLower)).map (·.2))

/-- Remix's `redirect(url, init)`: a 302 response whose headers are the init
headers with `Location` set to the target. -/
def redirectResp (url : String) (hs : List (String × String)) : HttpResponse :=
  { status := 302, statusText := "", headers := hs ++ [("Location", url)], body := .text "" }

/-- Predicate from src/utils.ts `isRedirect`: status in [300, 400). -/
def isRedirect (r : HttpResponse) : Bool :=
  300 ≤ r.status && r.status < 400

/-- Whether the character list `n` occurs contiguously inside `h`. -/
def sublistContains (n : List Char) : List Char → Bool
  | [] => n.isEmpty
  | c :: t => n.isPrefixOf (c :: t) || sublistContains n t

/-- Substring test (used for media types and for stating what an error
message names). -/
def containsSub (needle hay : String) : Bool :=
  sublistContains needle.toList hay.toList

/-- Modelled from the spec: `isJsonResponse` is exported by src/utils.ts,
which is absent from this snapshot (only its callers are). Spec section 4.5
step 2b merges the handler response body exactly "if the body is JSON", so the
predicate tests the response's Content-Type header for the JSON media type. -/
def isJsonResponse (r : HttpResponse) : Bool :=
  match headerGet r.headers "content-type" with
  | some v => containsSub "application/json" v
  | none => false

/-- Environment of external collaborators, treated as black boxes by the spec:
jose (`decodeJwt`, a pure decode the spec assumes infallible for well-formed
tokens — the embedding applies it only to tokens recovered from well-formed
seals or issued by the provider — and `jwtVerify` against the remote JWKS,
whose errors subsume network, signature and expiry failures), the provider RPC
`authenticateWithRefreshToken` (returning the new token pair or failing with a
message), the hosted URLs, the cookie storage serializations (`commitCookie`
for a session whose `jwt` key holds the given seal, `destroyCookie` for the
destroyed session) and the configuration values read via `getConfig`. -/
structure Env where
  cookiePassword : String
  clientId : String
  decodeJwt : String → TokenClaims
  jwtVerify : String → Except String Unit
  authenticateWithRefreshToken : String → String → Except String (String × String)
  commitCookie : Sealed → String
  destroyCookie : String
  authorizationUrl : String → String
  getLogoutUrl : String → Option String → String

/-- An incoming request, reduced to what the session core reads: its URL and
the `jwt` key of the cookie session parsed from its Cookie header (`none` when
the cookie holds no sealed session). -/
structure Request where
  url : String
  cookieJwt : Option Sealed

/-- Modelled from the spec: iron-session's `unsealData` (an external
collaborator; its code is not in this repository). Spec section 4.2 gives the
codec contract `decryptSession(sealedString) -> SessionRecord | SealError`,
and section 7 classes a SealError — a sealed value that cannot be
decrypted/verified — as a soft failure "treated as 'no session'", with
callers treating a corrupt/forged seal as "no valid session": a seal under
the configured password yields its record, anything else resolves to no
session. -/
def unsealData (env : Env) (v : Sealed) : Option Session :=
  match v with
  | .mk payload pw _ => if pw = env.cookiePassword then some payload else none
  | .corrupt => none

/-- src/session.ts lines 152-157: seal the session record (as given, in its
entirety) with the configured cookie password and `ttl: 0`. -/
def encryptSession (env : Env) (session : Session) : Sealed :=
  .mk session env.cookiePassword 0

/-- src/session.ts lines 543-556: if the cookie session has a `jwt` key,
unseal it with the configured password (a seal failure resolving to no
session), else return `null`. -/
def getSessionFromCookie (env : Env) (cookieJwt : Option Sealed) : Option Session :=
  match cookieJwt with
  | some v => unsealData env v
  | none => none

/-- src/session.ts lines 558-566: attempt `jwtVerify` against the remote key
set; the `try`/`catch` collapses every failure to `false`. -/
def verifyAccessToken (env : Env) (accessToken : String) : Except Thrown Bool :=
  match env.jwtVerify accessToken with
  | .ok _ => .ok true
  | .error _ => .ok false

/-- src/session.ts lines 521-541: decode the JWT payload (no verification)
and rename `sid`/`org_id` to `sessionId`/`organizationId`. -/
def getClaimsFromAccessToken (env : Env) (accessToken : String) : SessionClaims :=
  let c := env.decodeJwt accessToken
  { iss := c.iss, exp := c.exp, sessionId := c.sid, organizationId := c.org_id,
    role := c.role, permissions := c.permissions, entitlements := c.entitlements }

/-- src/session.ts lines 97-150, `updateSession`: no cookie session means
`null`; a session whose access token verifies is returned unchanged; otherwise
the refresh exchange either yields a new session (new token pair, same
user/impersonator, sealed and committed into a `Set-Cookie` header) or its
failure is wrapped in a `SessionRefreshError` and thrown. The `debug` logging
has no observable effect and is omitted. -/
def updateSession (env : Env) (req : Request) : Except Thrown (Option Session) := do
  match getSessionFromCookie env req.cookieJwt with
  | none => return none
  | some session =>
    let hasValidSession ← verifyAccessToken env session.accessToken
    if hasValidSession then
      return some session
    else
      match env.authenticateWithRefreshToken env.clientId session.refreshToken with
      | .ok (accessToken, refreshToken) =>
        let newSession : Session :=
          { accessToken := accessToken, refreshToken := refreshToken,
            user := session.user, impersonator := session.impersonator, headers := [] }
        let sealedJwt := encryptSession env newSession
        let cookie := env.commitCookie sealedJwt
        return some { newSession with headers := [("Set-Cookie", cookie)] }
      | .error e => throw (.error (.sessionRefreshError e))

/-- The Auth Context handed to application code (src/interfaces.ts
`AuthorizedData`/`UnauthorizedData`): one record type whose fields are all
optional, so both shapes inhabit it. -/
structure AuthData where
  user : Option User
  sessionId : Option String
  accessToken : Option String
  organizationId : Option String
  role : Option String
  permissions : Option (List String)
  entitlements : Option (List String)
  impersonator : Option Impersonator
  sealedSession : Option Sealed
  deriving DecidableEq, Repr

/-- The Unauthorized shape, src/session.ts lines 319-329: every field `null`. -/
def unauthorizedData : AuthData :=
  { user := none, sessionId := none, accessToken := none, organizationId := none,
    role := none, permissions := none, entitlements := none, impersonator := none,
    sealedSession := none }

/-- src/session.ts lines 334-366: the Authorized shape built from a resolved
session. The claims destructuring defaults `organizationId`/`role` to `null`
and `permissions`/`entitlements` to `[]` (`sessionId` has no default); the
`sealedSession` field re-reads the `jwt` key of the cookie session parsed from
the incoming request's Cookie header. -/
def sessionToAuth (env : Env) (req : Request) (session : Session) : AuthData :=
  let claims := getClaimsFromAccessToken env session.accessToken
  { user := session.user
    sessionId := claims.sessionId
    accessToken := some session.accessToken
    organizationId := claims.organizationId
    role := claims.role
    permissions := some (claims.permissions.getD [])
    entitlements := some (claims.entitlements.getD [])
    impersonator := session.impersonator
    sealedSession := req.cookieJwt }

/-- Encoding of an optional string field as a runtime value (`null` when absent). -/
def jsOfOptStr : Option String → JValue
  | none => .null
  | some s => .str s

/-- Encoding of an optional string-array field as a runtime value. -/
def jsOfOptStrList : Option (List String) → JValue
  | none => .null
  | some xs => .strList xs

/-- Encoding of the optional user field as a runtime value. -/
def jsOfOptUser : Option User → JValue
  | none => .null
  | some u => .user u

/-- Encoding of the optional impersonator field as a runtime value. -/
def jsOfOptImp : Option Impersonator → JValue
  | none => .null
  | some i => .imp i

/-- Encoding of the optional sealed-session field as a runtime value. -/
def jsOfOptSealed : Option Sealed → JValue
  | none => .null
  | some v => .sealedv v

/-- The auth context as the runtime object it is at the JavaScript level, with
the nine keys of `AuthorizedData`/`UnauthorizedData`. -/
def AuthData.toObj (a : AuthData) : JObj :=
  [("user", jsOfOptUser a.user),
   ("sessionId", jsOfOptStr a.sessionId),
   ("accessToken", jsOfOptStr a.accessToken),
   ("organizationId", jsOfOptStr a.organizationId),
   ("role", jsOfOptStr a.role),
   ("permissions", jsOfOptStrList a.permissions),
   ("entitlements", jsOfOptStrList a.entitlements),
   ("impersonator", jsOfOptImp a.impersonator),
   ("sealedSession", jsOfOptSealed a.sealedSession)]

/-- Outcome of the user-supplied loader (src/session.ts `LoaderValue`): a
plain object (also covering `null`), a raw `Response`, or a
`DataWithResponseInit` from `data()`. -/
inductive HandlerResult where
  | plain (o : JObj)
  | response (r : HttpResponse)
  | dataInit (d : DataInit)
  deriving DecidableEq, Repr

/-- A user loader, as a function of the auth context it receives (the other
loader args are opaque to the merging logic); it may throw. -/
abbrev Loader := AuthData → Except Thrown HandlerResult

/-- Normal return value of `authkitLoader`/`handleAuthLoader`: a
`DataWithResponseInit` or a pass-through `Response`. -/
inductive LoaderRet where
  | dataInit (d : DataInit)
  | response (r : HttpResponse)
  deriving DecidableEq, Repr

/-- Reading `session?.headers?.['Set-Cookie']` as a header list to append. -/
def sessionSetCookie (session : Option Session) : List (String × String) :=
  match session with
  | some s =>
    match (s.headers.find? (fun p => p.1 = "Set-Cookie")).map (·.2) with
    | some c => [("Set-Cookie", c)]
    | none => []
  | none => []

/-- src/session.ts lines 404-494, `handleAuthLoader`. Without a loader, wrap
the auth context with the session's headers. Otherwise call the loader and
merge: a `DataWithResponseInit` gets its headers unioned with the session's
`Set-Cookie` and its data shallow-merged with the auth context (auth wins); a
redirect `Response` is thrown unmodified; any other `Response` is cloned with
the session's `Set-Cookie` appended and, when its Content-Type is JSON and its
body parses, re-emitted as merged data (a body that fails to parse returns the
cloned response); a plain value is shallow-merged with the auth context and
given the session's headers. Header inits are modelled as pair lists (the
`Headers` branch of the union; the plain-object and array branches append the
same pairs in the same order). -/
def handleAuthLoader (loader : Option Loader) (auth : AuthData) (session : Option Session) :
    Except Thrown LoaderRet := do
  match loader with
  | none =>
    return .dataInit { data := auth.toObj,
                       init := session.map (fun s => { headers := s.headers, status := none, statusText := none }) }
  | some l =>
    let loaderResult ← l auth
    match loaderResult with
    | .dataInit d =>
      let origHeaders := (d.init.map (·.headers)).getD []
      let mergedHeaders := origHeaders ++ sessionSetCookie session
      return .dataInit { data := objAssign d.data auth.toObj,
                         init := some { headers := mergedHeaders,
                                        status := d.init.bind (·.status),
                                        statusText := d.init.bind (·.statusText) } }
    | .response r =>
      if isRedirect r then
        throw (.response r)
      else
        let newResponse := { r with headers := r.headers ++ sessionSetCookie session }
        if ¬ isJsonResponse newResponse then
          return .response newResponse
        else
          match newResponse.body with
          | .json responseData =>
            return .dataInit { data := objAssign responseData auth.toObj,
                               init := some { headers := newResponse.headers,
                                              status := some newResponse.status,
                                              statusText := some newResponse.statusText } }
          | .text _ => return .response newResponse
    | .plain o =>
      return .dataInit { data := objAssign o auth.toObj,
                         init := session.map (fun s => { headers := s.headers, status := none, statusText := none }) }

/-- Observable behavior of an `onSessionRefreshError` callback: it returns a
`Response`, returns something else, throws a `Response`, or throws a
non-`Response` value. -/
inductive RefreshErrCB where
  | returnsResponse (r : HttpResponse)
  | returnsOther
  | throwsResponse (r : HttpResponse)
  | throwsOther (e : JsError)
  deriving DecidableEq, Repr

/-- `AuthKitLoaderOptions` restricted to the fields with observable effect on
the embedded control flow (`debug` only logs; `storage`/`cookie` select the
storage collaborator already abstracted into `Env`; `onSessionRefreshSuccess`
is a fire-and-forget notification that alters no return value). -/
structure Options where
  ensureSignedIn : Bool
  onSessionRefreshError : Option RefreshErrCB
  deriving Repr

/-- The `try` block of `authkitLoader`, src/session.ts lines 302-368: resolve
the session; with none, either short-circuit with a redirect to the hosted
authorization URL that destroys any stale cookie (`ensureSignedIn`) or hand
the Unauthorized context to `handleAuthLoader`; with a session, hand the
Authorized context and the session over. -/
def authkitLoaderTry (env : Env) (req : Request) (opts : Options) (loader : Option Loader) :
    Except Thrown LoaderRet := do
  let session? ← updateSession env req
  match session? with
  | none =>
    if opts.ensureSignedIn then
      throw (.response (redirectResp (env.authorizationUrl req.url) [("Set-Cookie", env.destroyCookie)]))
    else
      handleAuthLoader loader unauthorizedData none
  | some session =>
    handleAuthLoader loader (sessionToAuth env req session) (some session)

/-- Default terminal action for a failed refresh, src/session.ts lines
392-396: throw a redirect to `/` whose headers destroy the session cookie. -/
def refreshFailureRedirect (env : Env) : Except Thrown LoaderRet :=
  throw (.response (redirectResp "/" [("Set-Cookie", env.destroyCookie)]))

/-- src/session.ts lines 282-402, `authkitLoader`: run the try block; a thrown
`SessionRefreshError` is caught and dispatched to `onSessionRefreshError` when
present — a returned `Response` is returned, a thrown `Response` is re-thrown,
anything else (including a swallowed non-`Response` throw) falls through to
the default redirect-to-`/`-and-destroy-cookie; every other outcome (normal or
thrown) passes through unchanged. -/
def authkitLoader (env : Env) (req : Request) (opts : Options) (loader : Option Loader) :
    Except Thrown LoaderRet :=
  match authkitLoaderTry env req opts loader with
  | .error (.error (.sessionRefreshError _)) =>
    match opts.onSessionRefreshError with
    | some (.returnsResponse r) => .ok (.response r)
    | some .returnsOther => refreshFailureRedirect env
    | some (.throwsResponse r) => throw (.response r)
    | some (.throwsOther _) => refreshFailureRedirect env
    | none => refreshFailureRedirect env
  | other => other

/-- The Auth Context `authkitLoader` resolves for a request (src/session.ts
lines 306-366) as a function of the resolved session: the Unauthorized
all-null record when no session resolves, the Authorized record otherwise; a
thrown resolution error passes through. -/
def resolvedAuthContext (env : Env) (req : Request) : Except Thrown AuthData :=
  (updateSession env req).map fun
    | none => unauthorizedData
    | some session => sessionToAuth env req session

/-- JavaScript truthiness of the optional `sessionId` claim (absent and the
empty string are falsy). -/
def truthyStr : Option String → Bool
  | none => false
  | some s => s ≠ ""

/-- src/session.ts lines 496-519, `terminateSession`: destructuring
`accessToken` out of `getSessionFromCookie`'s result throws a TypeError when
that result is `null` (the `as Session` cast silences this statically);
otherwise the cookie is destroyed and the response redirects to the hosted
logout URL when the claims carry a (truthy) session id, else to `returnTo`
or `/`. -/
def terminateSession (env : Env) (req : Request) (returnTo : Option String) :
    Except Thrown HttpResponse := do
  match getSessionFromCookie env req.cookieJwt with
  | none =>
    throw (.error (.typeError "Cannot destructure property 'accessToken' of null"))
  | some session =>
    let claims := getClaimsFromAccessToken env session.accessToken
    let headers := [("Set-Cookie", env.destroyCookie)]
    if truthyStr claims.sessionId then
      return redirectResp (env.getLogoutUrl (claims.sessionId.getD "") returnTo) headers
    else
      return redirectResp (returnTo.getD "/") headers

/-- src/auth.ts lines 13-15, `signOut`: delegate to `terminateSession` (this
version forwards no options). -/
def signOut (env : Env) (req : Request) : Except Thrown HttpResponse :=
  terminateSession env req none

/-- A configuration value: the sources deliver strings, explicit programmatic
values may also be booleans (`apiHttps`) or numbers (`apiPort`,
`cookieMaxAge`). -/
inductive ConfigValue where
  | str (s : String)
  | bool (b : Bool)
  | num (n : Int)
  deriving DecidableEq, Repr

/-- The configuration state of src/config.ts: the explicit `configValues` set
by `configure` and the `valueSource` keyed by environment-variable names
(object sources are functions of their keys here). Absent values (`undefined`
or `null`) are `none`. -/
structure Config where
  configValues : List (String × ConfigValue)
  valueSource : String → Option ConfigValue

/-- Underscore insertion of src/config.ts line 6: the regex
`([a-z])([A-Z])` to `$1_$2` puts an underscore between each lowercase letter
and the uppercase letter following it. -/
def camelSplit : List Char → List Char
  | [] => []
  | c1 :: rest =>
    match rest with
    | [] => [c1]
    | c2 :: _ =>
      if c1.isLower && c2.isUpper then c1 :: '_' :: camelSplit rest
      else c1 :: camelSplit rest

/-- src/config.ts lines 5-7, `getEnvironmentVariableName`: camelCase to
underscored uppercase with the `WORKOS_` prefix. -/
def getEnvironmentVariableName (s : String) : String :=
  "WORKOS_" ++ String.mk ((camelSplit s.toList).map Char.toUpper)

/-- Numeric value of a digit sequence. -/
def natOfDigits (ds : List Char) : Nat :=
  ds.foldl (fun n c => n * 10 + (c.toNat - 48)) 0

/-- JavaScript's `parseInt(v, 10)` on the strings reaching the config
coercions: skip leading whitespace, read an optional sign and the leading
decimal digits; no digits means `NaN`, which the caller maps to absent. -/
def jsParseInt (s : String) : Option Int :=
  let cs := s.toList.dropWhile Char.isWhitespace
  let signed : Bool × List Char :=
    match cs with
    | '-' :: rest => (true, rest)
    | '+' :: rest => (false, rest)
    | _ => (false, cs)
  let ds := signed.2.takeWhile Char.isDigit
  if ds.isEmpty then none
  else some ((if signed.1 then -1 else 1) * (natOfDigits ds : Int))

/-- src/config.ts lines 33-51, `getConfig`: an explicitly configured key wins;
otherwise the value source is consulted under the environment-variable name,
with string-to-type coercions for `apiHttps` (the string `"true"` is true) and
for `apiPort`/`cookieMaxAge` (decimal parse, non-numeric strings become
absent). -/
def getConfig (cfg : Config) (key : String) : Option ConfigValue :=
  match (cfg.configValues.find? (fun p => p.1 = key)).map (·.2) with
  | some v => some v
  | none =>
    let envKey := getEnvironmentVariableName key
    let value := cfg.valueSource envKey
    if key = "apiHttps" then
      match value with
      | some (.str v) => some (.bool (v = "true"))
      | _ => value
    else if key = "apiPort" ∨ key = "cookieMaxAge" then
      match value with
      | some (.str v) => (jsParseInt v).map .num
      | _ => value
    else value

/-- src/config.ts lines 53-59, `getRequiredConfig`: a still-absent value
throws `Missing required configuration value for <key>`. -/
def getRequiredConfig (cfg : Config) (key : String) : Except JsError ConfigValue :=
  match getConfig cfg key with
  | none => .error (.genericError ("Missing required configuration value for " ++ key))
  | some v => .ok v

/-! Concrete fixtures used by counterexamples and witnesses. -/

/-- A user as stored in the session ("sessionUser" of the merge-precedence
example). -/
def sessUser : User := ⟨"session-user"⟩

/-- Claims decoded from the session's (expired) access token. -/
def claimsOld : TokenClaims :=
  { sid := some "sess_123", org_id := some "org_1", role := some "admin",
    permissions := some ["read"], entitlements := some ["ent"], exp := some 1, iss := some "wos" }

/-- Claims decoded from a freshly issued access token. -/
def claimsNew : TokenClaims :=
  { sid := some "sess_456", org_id := some "org_1", role := some "user",
    permissions := some ["read"], entitlements := some ["basic"], exp := some 2, iss := some "wos" }

/-- An environment whose token verification and refresh exchange both fail. -/
def baseEnv : Env where
  cookiePassword := "kR620keEzOIzPThfnMEAba8XYgKdQ5vg"
  clientId := "client_123"
  decodeJwt := fun t => if t = "new.valid.token" then claimsNew else claimsOld
  jwtVerify := fun _ => .error "expired"
  authenticateWithRefreshToken := fun _ _ => .error "refresh failed"
  commitCookie := fun _ => "new-session-cookie"
  destroyCookie := "destroyed-session-cookie"
  authorizationUrl := fun _ => "https://auth.workos.com/oauth"
  getLogoutUrl := fun sid _ => "https://auth.workos.com/logout/" ++ sid

/-- Same environment with a refresh exchange that succeeds for the stored
refresh token. -/
def envRefreshOk : Env :=
  { baseEnv with
    authenticateWithRefreshToken := fun _ rt =>
      if rt = "refresh.token" then .ok ("new.valid.token", "new.refresh.token")
      else .error "invalid refresh token" }

/-- The session record stored in the cookie of the fixture requests. -/
def sess0 : Session :=
  { accessToken := "expired.token", refreshToken := "refresh.token",
    user := some sessUser, impersonator := none, headers := [] }

/-- A seal of `sess0` under the configured password. -/
def goodSeal : Sealed := .mk sess0 baseEnv.cookiePassword 0

/-- Request carrying the well-formed seal. -/
def req0 : Request := { url := "https://example.com/account?tab=1", cookieJwt := some goodSeal }

/-- Request with no sealed session in its cookie. -/
def reqNoCookie : Request := { url := "https://example.com/account?tab=1", cookieJwt := none }

/-- Request whose cookie value cannot be decrypted/verified. -/
def reqCorrupt : Request := { url := "https://example.com/account?tab=1", cookieJwt := some .corrupt }

/-! Helper lemmas about object lookup and `Object.assign` merging. -/

/-- Lookup distributes over appending, preferring the first list. -/
theorem objGet_append (l₁ l₂ : JObj) (k : String) :
    objGet (l₁ ++ l₂) k = match objGet l₁ k with
      | some v => some v
      | none => objGet l₂ k := by
  induction l₁ with
  | nil => simp [objGet]
  | cons p rest ih =>
    by_cases h : p.1 = k
    · simp [objGet, h]
    · simp [objGet, h, ih]

/-- Lookup in the overridden copy of the target object: present keys keep
their position and take the source's value when the source has one. -/
theorem objGet_map_override (a b : JObj) (k : String) :
    objGet (a.map (fun p => (p.1, (objGet b p.1).getD p.2))) k =
      match objGet a k with
      | some v => some ((objGet b k).getD v)
      | none => none := by
  induction a with
  | nil => simp [objGet]
  | cons p rest ih =>
    by_cases h : p.1 = k
    · simp [objGet, h]
    · simp [objGet, h, ih]

/-- Lookup in the source entries restricted to fresh keys agrees with the
source when the key is absent from the target. -/
theorem objGet_filter_fresh (a b : JObj) (k : String) (h : objGet a k = none) :
    objGet (b.filter (fun p => (objGet a p.1).isNone)) k = objGet b k := by
  induction b with
  | nil => simp
  | cons p rest ih =>
    by_cases hk : p.1 = k
    · have : objGet a p.1 = none := hk ▸ h
      simp [List.filter, this, objGet, hk, h]
    · cases hfp : (objGet a p.1).isNone with
      | true => simp [List.filter, hfp, objGet, hk, ih]
      | false => simp [List.filter, hfp, objGet, hk, ih]

/-- Merge precedence of `Object.assign({}, a, b)`: any key the source object
`b` carries resolves to `b`'s value in the merged object. -/
theorem objGet_objAssign (a b : JObj) (k : String) (hb : (objGet b k).isSome) :
    objGet (objAssign a b) k = objGet b k := by
  obtain ⟨w, hw⟩ := Option.isSome_iff_exists.mp hb
  unfold objAssign
  rw [objGet_append, objGet_map_override]
  cases h : objGet a k with
  | some v => simp [hw]
  | none => simp [objGet_filter_fresh a b k h]

/-- Binding a successful `Except` computation runs the continuation. -/
theorem exceptBind_ok {ε α β : Type} (a : α) (f : α → Except ε β) :
    (Except.ok a >>= f : Except ε β) = f a := rfl

/-- Binding a failed `Except` computation propagates the failure. -/
theorem exceptBind_error {ε α β : Type} (e : ε) (f : α → Except ε β) :
    (Except.error e >>= f : Except ε β) = Except.error e := rfl

/-- A present session whose access token fails verification and whose refresh
exchange fails makes `updateSession` throw the `SessionRefreshError` wrapping
the exchange failure. -/
theorem updateSession_refresh_error (env : Env) (req : Request) (s : Session)
    (jv re : String) (hs : getSessionFromCookie env req.cookieJwt = some s)
    (hverify : env.jwtVerify s.accessToken = .error jv)
    (hrefresh : env.authenticateWithRefreshToken env.clientId s.refreshToken = .error re) :
    updateSession env req = .error (.error (.sessionRefreshError re)) := by
  unfold updateSession
  rw [hs]
  simp only [verifyAccessToken, hverify, exceptBind_ok, if_neg Bool.false_ne_true, hrefresh]
  rfl

/-- The try block propagates a thrown session-resolution error. -/
theorem authkitLoaderTry_error (env : Env) (req : Request) (opts : Options)
    (loader : Option Loader) (t : Thrown) (h : updateSession env req = .error t) :
    authkitLoaderTry env req opts loader = .error t := by
  unfold authkitLoaderTry
  rw [h]
  rfl

/-- A session only resolves when the request's cookie carried a sealed value. -/
theorem updateSession_some_cookie (env : Env) (req : Request) (s : Session)
    (h : updateSession env req = .ok (some s)) : req.cookieJwt.isSome := by
  cases hv : req.cookieJwt with
  | some v => rfl
  | none =>
    unfold updateSession getSessionFromCookie at h
    rw [hv] at h
    exact absurd h (by simp [pure, Except.pure])

/-- C1: in every merge branch of `handleAuthLoader` — a plain-object handler
result, a JSON `Response` body, and a data-with-response-init result — the
merged output data is `Object.assign({}, handlerData, authContext)`, so every
key present in both resolves to the Auth Context's value. -/
theorem merge_auth_precedence (l : Loader) (auth : AuthData) (s? : Option Session)
    (o : JObj) (k : String) (hk : (objGet auth.toObj k).isSome) :
    (l auth = .ok (.plain o) →
      ∃ i, handleAuthLoader (some l) auth s? = .ok (.dataInit ⟨objAssign o auth.toObj, i⟩) ∧
        objGet (objAssign o auth.toObj) k = objGet auth.toObj k) ∧
    (∀ di, l auth = .ok (.dataInit di) → di.data = o →
      ∃ i, handleAuthLoader (some l) auth s? = .ok (.dataInit ⟨objAssign o auth.toObj, i⟩) ∧
        objGet (objAssign o auth.toObj) k = objGet auth.toObj k) ∧
    (∀ r, l auth = .ok (.response r) → isRedirect r = false → r.body = .json o →
      isJsonResponse { r with headers := r.headers ++ sessionSetCookie s? } = true →
      ∃ i, handleAuthLoader (some l) auth s? = .ok (.dataInit ⟨objAssign o auth.toObj, i⟩) ∧
        objGet (objAssign o auth.toObj) k = objGet auth.toObj k) := by
  refine ⟨fun h => ?_, fun di h hdata => ?_, fun r h hred hbody hjson => ?_⟩
  · refine ⟨s?.map fun s => ⟨s.headers, none, none⟩, ?_, objGet_objAssign o auth.toObj k hk⟩
    simp only [handleAuthLoader, h, exceptBind_ok]
    rfl
  · subst hdata
    refine ⟨some ⟨((di.init.map (·.headers)).getD []) ++ sessionSetCookie s?,
      di.init.bind (·.status), di.init.bind (·.statusText)⟩, ?_,
      objGet_objAssign di.data auth.toObj k hk⟩
    simp only [handleAuthLoader, h, exceptBind_ok]
    rfl
  · refine ⟨some ⟨r.headers ++ sessionSetCookie s?, some r.status, some r.statusText⟩, ?_,
      objGet_objAssign o auth.toObj k hk⟩
    rw [hbody] at hjson
    simp only [handleAuthLoader, h, exceptBind_ok, hred, Bool.false_eq_true, if_false, hbody,
      hjson]
    rfl

/-- Handler of the merge-precedence example: returns a plain object whose
`user` field collides with the Auth Context's. -/
def loaderC1 : Loader := fun _ => .ok (.plain [("user", .str "X"), ("count", .num 3)])

/-- The Auth Context of the merge-precedence example, carrying `sessUser`. -/
def authC1 : AuthData := sessionToAuth baseEnv req0 sess0

/-- C1 witness: for handler result `{user: "X", count: 3}` and the Auth
Context whose user is `sessUser`, the merged output's `user` is `sessUser`. -/
theorem merge_auth_precedence_witness :
    ∃ i, handleAuthLoader (some loaderC1) authC1 none =
        .ok (.dataInit ⟨objAssign [("user", .str "X"), ("count", .num 3)] authC1.toObj, i⟩) ∧
      objGet (objAssign [("user", .str "X"), ("count", .num 3)] authC1.toObj) "user" =
        objGet authC1.toObj "user" ∧
      objGet authC1.toObj "user" = some (.user sessUser) := by
  obtain ⟨h1, _, _⟩ := merge_auth_precedence loaderC1 authC1 none
    [("user", .str "X"), ("count", .num 3)] "user" (by decide)
  obtain ⟨i, hi, hget⟩ := h1 rfl
  exact ⟨i, hi, hget, by decide⟩

/-- C5: `verifyAccessToken` always returns a boolean — no failure of the
underlying `jwtVerify` (network, signature, expiry are all its error cases)
escapes to the caller — and the boolean is `true` exactly when verification
succeeded. -/
theorem verifyAccessToken_total (env : Env) (t : String) :
    ∃ b, verifyAccessToken env t = .ok b ∧ (b = true ↔ ∃ u, env.jwtVerify t = .ok u) := by
  cases h : env.jwtVerify t with
  | ok u => exact ⟨true, by simp [verifyAccessToken, h], by simp [h]⟩
  | error e => exact ⟨false, by simp [verifyAccessToken, h], by simp [h]⟩

/-- A session record with a non-empty transient `headers` field. -/
def sessHdr : Session := { sess0 with headers := [("Set-Cookie", "transient")] }

/-- C6 counterexample: `encryptSession` seals the record as given, so a
session with a non-empty `headers` field has that field inside the sealed
payload — the seal does not exclude it. -/
theorem encryptSession_headers_counterexample :
    (encryptSession baseEnv sessHdr).payload? = some sessHdr ∧
    ((encryptSession baseEnv sessHdr).payload?.map Session.headers) =
      some [("Set-Cookie", "transient")] ∧
    ((encryptSession baseEnv sessHdr).payload?.map Session.headers) ≠ some [] := by
  exact ⟨rfl, rfl, by decide⟩

/-- C6 amended: `encryptSession` seals the full Session Record — the
transient `headers` field included, though every caller seals a record whose
`headers` are empty at seal time — under the configured cookie password with
a zero (non-expiring) ttl, so unsealing with the same password returns the
record exactly. -/
theorem encryptSession_spec (env : Env) (s : Session) :
    (encryptSession env s).password? = some env.cookiePassword ∧
    (encryptSession env s).ttl? = some 0 ∧
    (encryptSession env s).payload? = some s ∧
    unsealData env (encryptSession env s) = some s := by
  exact ⟨rfl, rfl, rfl, by simp [unsealData, encryptSession]⟩

/-- C2: a sealed cookie value that cannot be decrypted/verified is treated as
"no session": the request resolves locally through the no-session/Anonymous
path — the all-null Unauthorized context is what reaches `handleAuthLoader`
and, in the bare form, it is returned as plain data — and the seal failure
never reaches application code as an exception. -/
theorem seal_failure_soft (env : Env) (req : Request) (v : Sealed)
    (cb : Option RefreshErrCB) (loader : Option Loader)
    (hv : req.cookieJwt = some v) (hbad : unsealData env v = none) :
    updateSession env req = .ok none ∧
    resolvedAuthContext env req = .ok unauthorizedData ∧
    authkitLoaderTry env req ⟨false, cb⟩ loader = handleAuthLoader loader unauthorizedData none ∧
    authkitLoader env req ⟨false, cb⟩ none = .ok (.dataInit ⟨unauthorizedData.toObj, none⟩) := by
  have hs : getSessionFromCookie env req.cookieJwt = none := by
    unfold getSessionFromCookie
    rw [hv]
    exact hbad
  have hu : updateSession env req = .ok none := by
    unfold updateSession
    rw [hs]
    rfl
  have ht : ∀ ld : Option Loader,
      authkitLoaderTry env req ⟨false, cb⟩ ld = handleAuthLoader ld unauthorizedData none := by
    intro ld
    unfold authkitLoaderTry
    rw [hu, exceptBind_ok]
    rfl
  refine ⟨hu, ?_, ht loader, ?_⟩
  · unfold resolvedAuthContext
    rw [hu]
    rfl
  · unfold authkitLoader
    rw [ht none]
    rfl

/-- C2 witness: the corrupt-seal fixture request resolves to the Anonymous
context and the bare loader returns it as plain data, throwing nothing. -/
theorem seal_failure_soft_witness :
    updateSession baseEnv reqCorrupt = .ok none ∧
    resolvedAuthContext baseEnv reqCorrupt = .ok unauthorizedData ∧
    authkitLoader baseEnv reqCorrupt ⟨false, none⟩ none =
      .ok (.dataInit ⟨unauthorizedData.toObj, none⟩) := by
  obtain ⟨h1, h2, -, h4⟩ := seal_failure_soft baseEnv reqCorrupt .corrupt none none rfl rfl
  exact ⟨h1, h2, h4⟩

/-- C3: when a present session's access token fails verification and the
refresh exchange throws, `authkitLoader` throws a redirect to `/` whose
headers destroy the session cookie; an `onSessionRefreshError` callback that
returns a `Response` has that response returned instead, and one that throws
a `Response` has it re-thrown. -/
theorem refresh_failure_policy (env : Env) (req : Request) (loader : Option Loader)
    (b : Bool) (v : Sealed) (s : Session) (jv re : String)
    (hv : req.cookieJwt = some v)
    (hun : unsealData env v = some s)
    (hverify : env.jwtVerify s.accessToken = .error jv)
    (hrefresh : env.authenticateWithRefreshToken env.clientId s.refreshToken = .error re) :
    authkitLoader env req ⟨b, none⟩ loader =
      .error (.response (redirectResp "/" [("Set-Cookie", env.destroyCookie)])) ∧
    (∀ r, authkitLoader env req ⟨b, some (.returnsResponse r)⟩ loader = .ok (.response r)) ∧
    (∀ r, authkitLoader env req ⟨b, some (.throwsResponse r)⟩ loader = .error (.response r)) := by
  have hs : getSessionFromCookie env req.cookieJwt = some s := by
    unfold getSessionFromCookie
    rw [hv]
    exact hun
  have hu := updateSession_refresh_error env req s jv re hs hverify hrefresh
  refine ⟨?_, fun r => ?_, fun r => ?_⟩ <;>
    (unfold authkitLoader; rw [authkitLoaderTry_error _ _ _ _ _ hu]) <;> rfl

/-- An alternate response produced by a refresh-error callback. -/
def okResp : HttpResponse :=
  { status := 200, statusText := "OK", headers := [], body := .text "alternate" }

/-- C3 witness: the fixture request with the expired token, failing
verification and failing refresh, under no callback and under both callback
override shapes. -/
theorem refresh_failure_policy_witness :
    authkitLoader baseEnv req0 ⟨false, none⟩ none =
      .error (.response (redirectResp "/" [("Set-Cookie", baseEnv.destroyCookie)])) ∧
    authkitLoader baseEnv req0 ⟨false, some (.returnsResponse okResp)⟩ none =
      .ok (.response okResp) ∧
    authkitLoader baseEnv req0 ⟨false, some (.throwsResponse okResp)⟩ none =
      .error (.response okResp) := by
  obtain ⟨h1, h2, h3⟩ := refresh_failure_policy baseEnv req0 none false goodSeal sess0
    "expired" "refresh failed" rfl rfl rfl rfl
  exact ⟨h1, h2 okResp, h3 okResp⟩

/-- C9: in the refresh-failure path, an `onSessionRefreshError` callback that
throws a non-`Response` value has that value silently discarded — the
default redirect-to-`/`-destroying-the-cookie is emitted, and the thrown
value never propagates. -/
theorem refresh_error_callback_swallow (env : Env) (req : Request) (loader : Option Loader)
    (b : Bool) (v : Sealed) (s : Session) (jv re : String) (e : JsError)
    (hv : req.cookieJwt = some v)
    (hun : unsealData env v = some s)
    (hverify : env.jwtVerify s.accessToken = .error jv)
    (hrefresh : env.authenticateWithRefreshToken env.clientId s.refreshToken = .error re) :
    authkitLoader env req ⟨b, some (.throwsOther e)⟩ loader =
      .error (.response (redirectResp "/" [("Set-Cookie", env.destroyCookie)])) ∧
    authkitLoader env req ⟨b, some (.throwsOther e)⟩ loader ≠ .error (.error e) := by
  have hsc : getSessionFromCookie env req.cookieJwt = some s := by
    unfold getSessionFromCookie
    rw [hv]
    exact hun
  have hu := updateSession_refresh_error env req s jv re hsc hverify hrefresh
  have h : authkitLoader env req ⟨b, some (.throwsOther e)⟩ loader =
      .error (.response (redirectResp "/" [("Set-Cookie", env.destroyCookie)])) := by
    unfold authkitLoader
    rw [authkitLoaderTry_error _ _ _ _ _ hu]
    rfl
  refine ⟨h, fun hc => ?_⟩
  rw [h] at hc
  exact Thrown.noConfusion (Except.error.inj hc)

/-- C9 witness: the fixture request whose callback throws a plain error. -/
theorem refresh_error_callback_swallow_witness :
    authkitLoader baseEnv req0 ⟨false, some (.throwsOther (.genericError "boom"))⟩ none =
      .error (.response (redirectResp "/" [("Set-Cookie", baseEnv.destroyCookie)])) := by
  exact (refresh_error_callback_swallow baseEnv req0 none false goodSeal sess0 "expired"
    "refresh failed" (.genericError "boom") rfl rfl rfl rfl).1

/-- C4: the Auth Context resolved for a request is exactly one of two shapes —
the all-null Unauthorized record, or the Authorized record populated from the
session and its claims (whose `accessToken` is the session's and whose
`sealedSession` is the request cookie's seal, necessarily present) — and it
is precisely the context `authkitLoader` hands to `handleAuthLoader` and
thereby to application code. -/
theorem auth_context_exclusive (env : Env) (req : Request) (opts : Options)
    (loader : Option Loader) (a : AuthData)
    (hE : opts.ensureSignedIn = false)
    (ha : resolvedAuthContext env req = .ok a) :
    (∃ s?, updateSession env req = .ok s? ∧
      authkitLoaderTry env req opts loader = handleAuthLoader loader a s?) ∧
    (a = unauthorizedData ∨
      ∃ s, updateSession env req = .ok (some s) ∧ a = sessionToAuth env req s ∧
        a.sealedSession = req.cookieJwt ∧ req.cookieJwt.isSome ∧
        a.accessToken = some s.accessToken) := by
  unfold resolvedAuthContext at ha
  cases hu : updateSession env req with
  | error t =>
    rw [hu] at ha
    exact absurd ha (by simp [Except.map])
  | ok s? =>
    rw [hu] at ha
    simp only [Except.map] at ha
    have hfa := Except.ok.inj ha
    cases s? with
    | none =>
      have haa : a = unauthorizedData := hfa.symm
      subst haa
      refine ⟨⟨none, rfl, ?_⟩, Or.inl rfl⟩
      unfold authkitLoaderTry
      rw [hu, exceptBind_ok]
      simp [hE]
    | some s =>
      have haa : a = sessionToAuth env req s := hfa.symm
      subst haa
      refine ⟨⟨some s, rfl, ?_⟩,
        Or.inr ⟨s, rfl, rfl, rfl, updateSession_some_cookie env req s hu, rfl⟩⟩
      unfold authkitLoaderTry
      rw [hu, exceptBind_ok]

/-- C4 witness: the cookieless fixture request resolves exactly to the
Unauthorized shape, and that shape is what reaches `handleAuthLoader`. -/
theorem auth_context_exclusive_witness :
    ∃ s?, updateSession baseEnv reqNoCookie = .ok s? ∧
      authkitLoaderTry baseEnv reqNoCookie ⟨false, none⟩ none =
        handleAuthLoader none unauthorizedData s? := by
  exact (auth_context_exclusive baseEnv reqNoCookie ⟨false, none⟩ none unauthorizedData
    rfl rfl).1

/-- C7 amended: whenever a Session record is recovered from the request's
cookie (it holds a seal decryptable with the configured password),
`terminateSession` returns a redirect whose headers destroy the session
cookie — to the hosted logout URL when the claims carry a truthy session id,
else to `returnTo` or `/`. Whenever no Session record is recovered — no
sealed value in the cookie, or a seal failure treated as no session —
`terminateSession` instead throws a TypeError (destructuring `null`) and
emits no response, so the cookie is not destroyed. -/
theorem terminateSession_spec (env : Env) (req : Request) (rt : Option String)
    (v : Sealed) (s : Session)
    (hv : req.cookieJwt = some v) (hun : unsealData env v = some s) :
    terminateSession env req rt = .ok (redirectResp
      (if truthyStr (getClaimsFromAccessToken env s.accessToken).sessionId
       then env.getLogoutUrl
         ((getClaimsFromAccessToken env s.accessToken).sessionId.getD "") rt
       else rt.getD "/")
      [("Set-Cookie", env.destroyCookie)]) ∧
    (∀ req' : Request, getSessionFromCookie env req'.cookieJwt = none →
      terminateSession env req' rt =
        .error (.error (.typeError "Cannot destructure property 'accessToken' of null"))) := by
  have hs : getSessionFromCookie env req.cookieJwt = some s := by
    unfold getSessionFromCookie
    rw [hv]
    exact hun
  refine ⟨?_, fun req' h' => ?_⟩
  · unfold terminateSession
    rw [hs]
    by_cases h : truthyStr (getClaimsFromAccessToken env s.accessToken).sessionId
    · simp [h]
      rfl
    · simp [h]
      rfl
  · unfold terminateSession
    rw [h']
    rfl

/-- C7 counterexample: a request with no sealed session in its cookie makes
`terminateSession` throw (destructuring `null`); no response is emitted, so
the cookie is not destroyed. -/
theorem terminateSession_null_counterexample :
    terminateSession baseEnv reqNoCookie none =
      .error (.error (.typeError "Cannot destructure property 'accessToken' of null")) ∧
    (∀ r, terminateSession baseEnv reqNoCookie none ≠ .ok r) := by
  have h : terminateSession baseEnv reqNoCookie none =
      .error (.error (.typeError "Cannot destructure property 'accessToken' of null")) := rfl
  refine ⟨h, fun r hc => ?_⟩
  rw [h] at hc
  exact Except.noConfusion hc

/-- C7 witness: the fixture request with the stored session redirects to the
hosted logout URL for its session id and destroys the cookie, while the
cookieless request throws. -/
theorem terminateSession_spec_witness :
    terminateSession baseEnv req0 none = .ok (redirectResp
      "https://auth.workos.com/logout/sess_123" [("Set-Cookie", baseEnv.destroyCookie)]) ∧
    terminateSession baseEnv reqNoCookie none =
      .error (.error (.typeError "Cannot destructure property 'accessToken' of null")) := by
  obtain ⟨h1, h2⟩ := terminateSession_spec baseEnv req0 none goodSeal sess0 rfl rfl
  exact ⟨h1, h2 reqNoCookie rfl⟩

/-- C8 amended: a key still absent after the precedence chain makes
`getRequiredConfig` throw an error whose message names the missing key — and
only the key: the environment-variable equivalent is not part of the message
(see the counterexample). -/
theorem getRequiredConfig_missing (cfg : Config) (key : String)
    (h : getConfig cfg key = none) :
    getRequiredConfig cfg key =
      .error (.genericError ("Missing required configuration value for " ++ key)) := by
  unfold getRequiredConfig
  rw [h]

/-- The unconfigured configuration state. -/
def cfgEmpty : Config := ⟨[], fun _ => none⟩

/-- C8 counterexample: for the missing key `clientId` the thrown message
contains the key but not its environment-variable equivalent
`WORKOS_CLIENT_ID`. -/
theorem getRequiredConfig_envname_counterexample :
    getRequiredConfig cfgEmpty "clientId" =
      .error (.genericError "Missing required configuration value for clientId") ∧
    getEnvironmentVariableName "clientId" = "WORKOS_CLIENT_ID" ∧
    containsSub "WORKOS_CLIENT_ID" "Missing required configuration value for clientId" = false ∧
    containsSub "clientId" "Missing required configuration value for clientId" = true := by
  exact ⟨rfl, rfl, by decide, by decide⟩

/-- C8 witness: the amended theorem at the empty configuration and the
`apiKey` key. -/
theorem getRequiredConfig_missing_witness :
    getRequiredConfig cfgEmpty "apiKey" =
      .error (.genericError "Missing required configuration value for apiKey") := by
  exact getRequiredConfig_missing cfgEmpty "apiKey" rfl

/-- C10: when the session is refreshed (token invalid, refresh exchange
succeeds), the new session carries the fresh token pair and a `Set-Cookie`
header committing the seal of the new record, while the Auth Context's
`accessToken` is the newly issued token and its `sealedSession` is re-read
from the incoming request's cookie — the old seal whose payload still holds
the pre-refresh tokens. -/
theorem refreshed_session_seals (env : Env) (req : Request) (s : Session) (pw : String)
    (t : Nat) (a' r' jv : String)
    (hv : req.cookieJwt = some (.mk s pw t))
    (hpw : pw = env.cookiePassword)
    (hverify : env.jwtVerify s.accessToken = .error jv)
    (hrefresh : env.authenticateWithRefreshToken env.clientId s.refreshToken = .ok (a', r')) :
    updateSession env req = .ok (some
      { accessToken := a', refreshToken := r', user := s.user, impersonator := s.impersonator,
        headers := [("Set-Cookie", env.commitCookie (Sealed.mk
          { accessToken := a', refreshToken := r', user := s.user,
            impersonator := s.impersonator, headers := [] } env.cookiePassword 0))] }) ∧
    ∃ a, resolvedAuthContext env req = .ok a ∧
      a.accessToken = some a' ∧
      a.sealedSession = some (.mk s pw t) ∧
      (Sealed.mk s pw t).payload? = some s := by
  have hunseal : unsealData env (.mk s pw t) = some s := by simp [unsealData, hpw]
  have hs : getSessionFromCookie env req.cookieJwt = some s := by
    unfold getSessionFromCookie
    rw [hv]
    exact hunseal
  have hu : updateSession env req = .ok (some
      { accessToken := a', refreshToken := r', user := s.user, impersonator := s.impersonator,
        headers := [("Set-Cookie", env.commitCookie (Sealed.mk
          { accessToken := a', refreshToken := r', user := s.user,
            impersonator := s.impersonator, headers := [] } env.cookiePassword 0))] }) := by
    unfold updateSession
    rw [hs]
    simp [verifyAccessToken, hverify, exceptBind_ok, hrefresh, encryptSession]
    rfl
  refine ⟨hu, sessionToAuth env req
    { accessToken := a', refreshToken := r', user := s.user, impersonator := s.impersonator,
      headers := [("Set-Cookie", env.commitCookie (Sealed.mk
        { accessToken := a', refreshToken := r', user := s.user,
          impersonator := s.impersonator, headers := [] } env.cookiePassword 0))] },
    ?_, rfl, ?_, rfl⟩
  · unfold resolvedAuthContext
    rw [hu]
    rfl
  · exact hv

/-- C10 witness: the fixture request whose refresh succeeds yields the new
access token in the Auth Context while `sealedSession` stays the original
seal. -/
theorem refreshed_session_seals_witness :
    ∃ a, resolvedAuthContext envRefreshOk req0 = .ok a ∧
      a.accessToken = some "new.valid.token" ∧
      a.sealedSession = some goodSeal := by
  obtain ⟨-, a, h1, h2, h3, -⟩ := refreshed_session_seals envRefreshOk req0 sess0
    baseEnv.cookiePassword 0 "new.valid.token" "new.refresh.token" "expired" rfl rfl rfl rfl
  exact ⟨a, h1, h2, h3⟩

end AuthKit
